import Mathlib

/-!
Shallow embedding of `src/Drum.py` (class `Moku_Go`), a sequential wrapper
around a remote lock-in amplifier.  Every remote-procedure call, sleep,
console write and motor command the Python methods issue is recorded as an
`Event`, so each method becomes a pure function from its arguments (and an
oracle for the instrument's read outcomes) to the list of events it issues,
paired with the value it returns.  Numeric values are embedded as rationals.
-/

namespace Drum

/-- One observable action of `Moku_Go`: a call on the vendor SDK handle
`self.LIA`, a `time.sleep`, a console write, or a motor command.
Constructor names and argument order follow the calls in `src/Drum.py`.
In `set_demodulation` the third argument is the `phase` keyword: `some p`
when the Python call passes `phase = p`, `none` when the call omits it. -/
inductive Event where
  | set_frontend : Nat → String → String → String → Event
  | set_demodulation : String → ℚ → Option ℚ → Event
  | set_aux_output : ℚ → ℚ → Event
  | set_filter : ℚ → String → Event
  | set_gain : ℚ → ℚ → Event
  | set_monitor : Nat → String → Event
  | set_outputs : String → String → Event
  | set_polar_mode : String → Event
  | sleep : ℚ → Event
  | get_data : Event
  | progress : Nat → Nat → ℚ → ℚ → Event
  | print_line : Nat → Nat → ℚ → Event
  | radial_go : Int → Event
  | angular_go : Int → Event
  | contour_plot : List ℚ → List ℚ → Event
deriving DecidableEq

/-- True on the demodulation-frequency call issued by `set_frequency`
and `configre_lockin` (`self.LIA.set_demodulation`). -/
def is_set_frequency : Event → Bool
  | Event.set_demodulation _ _ _ => true
  | _ => false

/-- True on a `time.sleep` settle wait. -/
def is_sleep : Event → Bool
  | Event.sleep _ => true
  | _ => false

/-- True on an instrument buffered-data read (`self.LIA.get_data`, the
remote call inside `get_output`). -/
def is_get_data : Event → Bool
  | Event.get_data => true
  | _ => false

/-- True on a lowpass filter configuration call (`self.LIA.set_filter`). -/
def is_filter_call : Event → Bool
  | Event.set_filter _ _ => true
  | _ => false

/-- True on an auxiliary sinewave output call (`self.LIA.set_aux_output`). -/
def is_aux_output : Event → Bool
  | Event.set_aux_output _ _ => true
  | _ => false

/-- True on the console progress line written by `scan`. -/
def is_progress : Event → Bool
  | Event.progress _ _ _ _ => true
  | _ => false

/-- True on the contour-plot rendering step of `spatial_scan`. -/
def is_contour_plot : Event → Bool
  | Event.contour_plot _ _ => true
  | _ => false

/-- Embeds `Moku_Go.configre_lockin` (src/Drum.py lines 33-96): the eight
configuration calls in source order.  The `lowpass_slope` branch at lines
81-84 matches only 6, 12, 18 and 24 and issues no `set_filter` call
otherwise.  Note that each branch passes the literal corner frequency `10`
to `set_filter`, not the `lowpass_corner` parameter. -/
def configre_lockin (freq amp lowpass_corner lowpass_slope gain : ℚ) : List Event :=
  [Event.set_frontend 1 "AC" "1MOhm" "0dB",
   Event.set_demodulation "Internal" freq (some 0),
   Event.set_aux_output freq amp] ++
  (if lowpass_slope = 6 then [Event.set_filter 10 "Slope6dB"]
   else if lowpass_slope = 12 then [Event.set_filter 10 "Slope12dB"]
   else if lowpass_slope = 18 then [Event.set_filter 10 "Slope18dB"]
   else if lowpass_slope = 24 then [Event.set_filter 10 "Slope24dB"]
   else []) ++
  [Event.set_gain gain 1,
   Event.set_monitor 2 "MainOutput",
   Event.set_outputs "R" "Demod",
   Event.set_polar_mode "7.5mVpp"]

/-- The slope identifier string the source's branch sends for each valid
`lowpass_slope` value (lines 81-84). -/
def slope_string (lowpass_slope : ℚ) : String :=
  if lowpass_slope = 6 then "Slope6dB"
  else if lowpass_slope = 12 then "Slope12dB"
  else if lowpass_slope = 18 then "Slope18dB"
  else "Slope24dB"

/-- Embeds `Moku_Go.set_amplitude` (lines 98-108): a single
`set_aux_output` call with the literal `0` as the frequency argument. -/
def set_amplitude (amplitude : ℚ) : List Event :=
  [Event.set_aux_output 0 amplitude]

/-- Embeds `Moku_Go.set_frequency` (lines 111-121).  The method accepts a
`phase` parameter but the body passes only the source and the frequency to
`set_demodulation`; the phase keyword is omitted (`none`). -/
def set_frequency (freq phase : ℚ) : List Event :=
  [Event.set_demodulation "Internal" freq none]

/-- The buffered channel data returned by `self.LIA.get_data()`:
per-channel sample lists. -/
structure ChannelData where
  ch1 : List ℚ
  ch2 : List ℚ
deriving DecidableEq

/-- Embeds `numpy.average` on a sample list: sum divided by length. -/
def average (xs : List ℚ) : ℚ := xs.sum / xs.length

/-- Embeds `Moku_Go.get_output` (lines 123-128): mean of the `ch2` samples
of the fetched record. -/
def get_output (data : ChannelData) : ℚ := average data.ch2

/-- The arithmetic mean as the specification words it, for comparison with
`get_output`. -/
def arithmeticMean (xs : List ℚ) : ℚ := xs.sum / xs.length

/-- The four events of one `scan` loop iteration (lines 161-179) for loop
index `i` over `n` frequencies: set the demodulation frequency, settle,
attempt the read, and write the progress line.  The progress line's bar
width and percentage are `int(25*i/n)` and `int(100*i/n)`; for the
`0 ≤ i < n` values the loop produces, Python's truncating `int` of the
true division coincides with natural-number division. -/
def scan_block (n : Nat) (delay : ℚ) (i : Nat) (f val : ℚ) : List Event :=
  [Event.set_demodulation "Internal" f none,
   Event.sleep delay,
   Event.get_data,
   Event.progress (25 * i / n) (100 * i / n) f val]

/-- The `for i, f in enumerate(freqs)` loop of `Moku_Go.scan`
(lines 161-179), with `i` the current index and `n = len(freqs)`.
`reads i` is the outcome of the `self.get_output()` attempt on iteration
`i`: `none` when it raises (the bare `except` at line 171 then sets
`val = 0`) and `some v` when it returns `v`.  A successful `get_output`
returns a `numpy.average` float, never Python's `None`, so the
`if(val != None)` guard at line 173 appends `val` on both paths: `0` after
an exception (since `0 != None`) and `v` after a success. -/
def scan_loop (delay : ℚ) (reads : Nat → Option ℚ) (n : Nat) :
    Nat → List ℚ → List Event × List ℚ
  | _, [] => ([], [])
  | i, f :: rest =>
    let val : ℚ := (reads i).getD 0
    let next := scan_loop delay reads n (i + 1) rest
    (scan_block n delay i f val ++ next.1, val :: next.2)

/-- Embeds `Moku_Go.scan` (lines 130-187): the issued events and the
returned amplitude array.  The plot at lines 182-185 is an external
rendering side effect outside the returned value and is not recorded. -/
def scan (freqs : List ℚ) (delay : ℚ) (reads : Nat → Option ℚ) :
    List Event × List ℚ :=
  scan_loop delay reads freqs.length 0 freqs

/-- The `for j in range(10)` inner loop of `Moku_Go.spatial_scan`
(lines 212-217), at angular index `i`, next radial index `j`, with `fuel`
iterations remaining.  `reads` numbers the `get_output` results in call
order: read `11 * i + j + 1` is the one after the `(j+1)`-th radial step of
angular pass `i` (read `11 * i` being that pass's baseline). -/
def radial_loop (reads : Nat → ℚ) (i : Nat) : Nat → Nat → List Event × List ℚ
  | _, 0 => ([], [])
  | j, fuel + 1 =>
    let val := reads (11 * i + j + 1)
    let next := radial_loop reads i (j + 1) fuel
    (Event.radial_go 700 :: Event.sleep 3 :: Event.get_data ::
       Event.print_line (10 * i) (700 * (j + 1)) val :: next.1,
     val :: next.2)

/-- The `for i in range(18)` outer loop of `Moku_Go.spatial_scan`
(lines 207-223): baseline read, ten radial steps, then the radial return
moves, the angular advance and the 2-second settle.  The undeclared global
`motor` of the source is the external motor-control driver; its commands
are recorded as events. -/
def angular_loop (reads : Nat → ℚ) : Nat → Nat → List Event × List (List ℚ)
  | _, 0 => ([], [])
  | i, fuel + 1 =>
    let base := reads (11 * i)
    let inner := radial_loop reads i 0 10
    let next := angular_loop reads (i + 1) fuel
    (Event.get_data :: inner.1 ++
       (Event.radial_go (-7250) :: Event.radial_go 250 ::
        Event.angular_go 40 :: Event.sleep 2 :: next.1),
     (base :: inner.2) :: next.2)

/-- Embeds `Moku_Go.spatial_scan` (lines 190-237): the fixed 18-pass sweep
followed by the contour plot, whose coordinate grid is the only place the
`r` and `theta` arguments are used (lines 226-232). -/
def spatial_scan (r theta : List ℚ) (reads : Nat → ℚ) :
    List Event × List (List ℚ) :=
  ((angular_loop reads 0 18).1 ++ [Event.contour_plot r theta],
   (angular_loop reads 0 18).2)

/-- Modelled from the spec: the fake instrument double of §8, recording
the configuration state the issued calls establish.  The vendor SDK that
interprets the calls is an external collaborator not present in the
repository; per the spec, a `set_aux_output` frequency of `0` is the
"no frequency change" sentinel, leaving the recorded auxiliary frequency
as it was. -/
structure FakeInstrument where
  demodSource : String
  demodFrequency : ℚ
  demodPhase : Option ℚ
  auxFrequency : ℚ
  auxAmplitude : ℚ
deriving DecidableEq

/-- Modelled from the spec: how one issued call updates the fake
instrument's recorded state.  Only the demodulation and auxiliary-output
calls touch the fields tracked here. -/
def applyEvent (s : FakeInstrument) : Event → FakeInstrument
  | Event.set_demodulation src f p =>
      { s with demodSource := src, demodFrequency := f, demodPhase := p }
  | Event.set_aux_output f a =>
      { s with auxAmplitude := a,
               auxFrequency := if f = 0 then s.auxFrequency else f }
  | _ => s

/-- Runs a list of issued calls against the fake instrument state. -/
def applyEvents (s : FakeInstrument) (evs : List Event) : FakeInstrument :=
  evs.foldl applyEvent s

/-! ### Helper lemmas about the scan loops -/

theorem scan_loop_fst (delay : ℚ) (reads : Nat → Option ℚ) (n : Nat) :
    ∀ (fs : List ℚ) (i : Nat),
      (scan_loop delay reads n i fs).1 =
        (List.enumFrom i fs).flatMap
          (fun p => scan_block n delay p.1 p.2 ((reads p.1).getD 0)) := by
  intro fs
  induction fs with
  | nil => intro i; rfl
  | cons f rest ih =>
      intro i
      simp [scan_loop, List.enumFrom, ih]

theorem scan_loop_snd (delay : ℚ) (reads : Nat → Option ℚ) (n : Nat) :
    ∀ (fs : List ℚ) (i : Nat),
      (scan_loop delay reads n i fs).2 =
        (List.enumFrom i fs).map (fun p => (reads p.1).getD 0) := by
  intro fs
  induction fs with
  | nil => intro i; rfl
  | cons f rest ih =>
      intro i
      simp [scan_loop, List.enumFrom, ih]

theorem scan_loop_filter_freq (delay : ℚ) (reads : Nat → Option ℚ) (n : Nat) :
    ∀ (fs : List ℚ) (i : Nat),
      (scan_loop delay reads n i fs).1.filter is_set_frequency =
        fs.map (fun f => Event.set_demodulation "Internal" f none) := by
  intro fs
  induction fs with
  | nil => intro i; rfl
  | cons f rest ih =>
      intro i
      simp [scan_loop, scan_block, is_set_frequency, ih]

theorem scan_loop_filter_sleep (delay : ℚ) (reads : Nat → Option ℚ) (n : Nat) :
    ∀ (fs : List ℚ) (i : Nat),
      (scan_loop delay reads n i fs).1.filter is_sleep =
        List.replicate fs.length (Event.sleep delay) := by
  intro fs
  induction fs with
  | nil => intro i; rfl
  | cons f rest ih =>
      intro i
      simp [scan_loop, scan_block, is_sleep, ih, List.replicate]

theorem scan_loop_snd_getD (delay : ℚ) (reads : Nat → Option ℚ) (n : Nat) :
    ∀ (fs : List ℚ) (i k : Nat), k < fs.length →
      (scan_loop delay reads n i fs).2.getD k 1 = (reads (i + k)).getD 0 := by
  intro fs
  induction fs with
  | nil => intro i k hk; simp at hk
  | cons f rest ih =>
      intro i k hk
      cases k with
      | zero => simp [scan_loop]
      | succ k =>
          have hk' : k < rest.length := by
            simpa [Nat.succ_lt_succ_iff] using hk
          have := ih (i + 1) k hk'
          simpa [scan_loop, Nat.add_assoc, Nat.add_comm, Nat.add_left_comm]
            using this

theorem scan_loop_snd_length (delay : ℚ) (reads : Nat → Option ℚ) (n : Nat) :
    ∀ (fs : List ℚ) (i : Nat),
      (scan_loop delay reads n i fs).2.length = fs.length := by
  intro fs
  induction fs with
  | nil => intro i; rfl
  | cons f rest ih => intro i; simp [scan_loop, ih]

theorem radial_loop_count (reads : Nat → ℚ) (i : Nat) :
    ∀ (fuel j : Nat),
      (radial_loop reads i j fuel).1.countP is_get_data = fuel := by
  intro fuel
  induction fuel with
  | zero => intro j; rfl
  | succ fuel ih =>
      intro j
      simp [radial_loop, List.countP_cons, is_get_data, ih]

theorem radial_loop_snd_length (reads : Nat → ℚ) (i : Nat) :
    ∀ (fuel j : Nat), (radial_loop reads i j fuel).2.length = fuel := by
  intro fuel
  induction fuel with
  | zero => intro j; rfl
  | succ fuel ih => intro j; simp [radial_loop, ih]

theorem angular_loop_count (reads : Nat → ℚ) :
    ∀ (fuel i : Nat),
      (angular_loop reads i fuel).1.countP is_get_data = 11 * fuel := by
  intro fuel
  induction fuel with
  | zero => intro i; rfl
  | succ fuel ih =>
      intro i
      simp [angular_loop, List.countP_cons, List.countP_append, is_get_data,
        ih, radial_loop_count]
      ring

theorem angular_loop_snd_length (reads : Nat → ℚ) :
    ∀ (fuel i : Nat), (angular_loop reads i fuel).2.length = fuel := by
  intro fuel
  induction fuel with
  | zero => intro i; rfl
  | succ fuel ih => intro i; simp [angular_loop, ih]

theorem angular_loop_rows (reads : Nat → ℚ) :
    ∀ (fuel i : Nat),
      (angular_loop reads i fuel).2.map List.length =
        List.replicate fuel 11 := by
  intro fuel
  induction fuel with
  | zero => intro i; rfl
  | succ fuel ih =>
      intro i
      simp [angular_loop, ih, radial_loop_snd_length, List.replicate]

theorem slope_string_six : slope_string 6 = "Slope6dB" := by
  norm_num [slope_string]

theorem slope_string_twelve : slope_string 12 = "Slope12dB" := by
  norm_num [slope_string]

theorem slope_string_eighteen : slope_string 18 = "Slope18dB" := by
  norm_num [slope_string]

theorem slope_string_twentyfour : slope_string 24 = "Slope24dB" := by
  norm_num [slope_string]

/-! ### The claims -/

/-- Claim C1: for every input frequency sequence `freqs` of length `n` and
every delay, `scan freqs delay` issues exactly `n` set-frequency calls,
one per element of `freqs` in the given order; exactly `n` settle waits of
`delay` seconds, each immediately after its set-frequency call and before
the corresponding read (the per-iteration trace is the four-event
`scan_block`); and returns exactly `n` readings whose `i`-th entry is the
reading taken at `freqs[i]`, in input order. -/
theorem scan_contract (freqs : List ℚ) (delay : ℚ) (reads : Nat → Option ℚ) :
    (scan freqs delay reads).1 =
      (List.enumFrom 0 freqs).flatMap
        (fun p => scan_block freqs.length delay p.1 p.2 ((reads p.1).getD 0))
    ∧ (scan freqs delay reads).1.filter is_set_frequency =
        freqs.map (fun f => Event.set_demodulation "Internal" f none)
    ∧ (scan freqs delay reads).1.filter is_sleep =
        List.replicate freqs.length (Event.sleep delay)
    ∧ (scan freqs delay reads).2 =
        (List.enumFrom 0 freqs).map (fun p => (reads p.1).getD 0)
    ∧ (scan freqs delay reads).2.length = freqs.length := by
  refine ⟨scan_loop_fst delay reads freqs.length freqs 0,
    scan_loop_filter_freq delay reads freqs.length freqs 0,
    scan_loop_filter_sleep delay reads freqs.length freqs 0,
    scan_loop_snd delay reads freqs.length freqs 0,
    scan_loop_snd_length delay reads freqs.length freqs 0⟩

/-- Claim C2: if the instrument read raises on iteration `k` of `scan`
(`reads k = none`), the `k`-th entry of the returned sequence is `0`, the
loop still completes for all remaining frequencies (the result keeps
length `n` and every iteration's set-frequency call, including iteration
`k+1`'s, is issued), and no exception reaches the caller. -/
theorem scan_failure_nonfatal (freqs : List ℚ) (delay : ℚ)
    (reads : Nat → Option ℚ) (k : Nat) (hk : k < freqs.length)
    (hfail : reads k = none) :
    (scan freqs delay reads).2.getD k 1 = 0
    ∧ (scan freqs delay reads).2.length = freqs.length
    ∧ (scan freqs delay reads).1.filter is_set_frequency =
        freqs.map (fun f => Event.set_demodulation "Internal" f none) := by
  refine ⟨?_, scan_loop_snd_length delay reads freqs.length freqs 0,
    scan_loop_filter_freq delay reads freqs.length freqs 0⟩
  have h := scan_loop_snd_getD delay reads freqs.length freqs 0 k hk
  simpa [scan, hfail] using h

/-- Witness for C2 at `freqs = [5, 7]` with a read that raises on
iteration 0 and returns 3 afterwards. -/
theorem scan_failure_nonfatal_witness :
    (scan [5, 7] 1 (fun i => if i = 0 then none else some 3)).2.getD 0 1 = 0
    ∧ (scan [5, 7] 1 (fun i => if i = 0 then none else some 3)).2.length =
        ([5, 7] : List ℚ).length
    ∧ (scan [5, 7] 1
        (fun i => if i = 0 then none else some 3)).1.filter is_set_frequency =
        ([5, 7] : List ℚ).map
          (fun f => Event.set_demodulation "Internal" f none) :=
  scan_failure_nonfatal [5, 7] 1 (fun i => if i = 0 then none else some 3) 0
    (by simp) (by simp)

/-- Claim C3: for every `lowpass_slope` argument, `configre_lockin` issues
exactly one filter-set call, with corner frequency 10 and the slope
identifier matching the value, when the slope is 6, 12, 18 or 24; for any
other value it issues no filter-set call at all and the remaining seven
configuration calls still execute in order. -/
theorem configre_lockin_filter_branch
    (freq amp lowpass_corner lowpass_slope gain : ℚ) :
    ((lowpass_slope = 6 ∨ lowpass_slope = 12 ∨ lowpass_slope = 18 ∨
        lowpass_slope = 24) →
      (configre_lockin freq amp lowpass_corner lowpass_slope gain).filter
          is_filter_call =
        [Event.set_filter 10 (slope_string lowpass_slope)])
    ∧ (¬(lowpass_slope = 6 ∨ lowpass_slope = 12 ∨ lowpass_slope = 18 ∨
        lowpass_slope = 24) →
      (configre_lockin freq amp lowpass_corner lowpass_slope gain).filter
          is_filter_call = []
      ∧ configre_lockin freq amp lowpass_corner lowpass_slope gain =
          [Event.set_frontend 1 "AC" "1MOhm" "0dB",
           Event.set_demodulation "Internal" freq (some 0),
           Event.set_aux_output freq amp,
           Event.set_gain gain 1,
           Event.set_monitor 2 "MainOutput",
           Event.set_outputs "R" "Demod",
           Event.set_polar_mode "7.5mVpp"]) := by
  constructor
  · rintro (h | h | h | h) <;> subst h <;>
      norm_num [configre_lockin, slope_string, is_filter_call,
        List.filter_cons]
  · intro h
    push_neg at h
    obtain ⟨h6, h12, h18, h24⟩ := h
    constructor <;>
      simp [configre_lockin, is_filter_call, List.filter_cons, h6, h12, h18,
        h24]

/-- Witness for C3: slope 12 yields the single filter-set call with corner
10 and identifier "Slope12dB"; slope 7 yields no filter-set call. -/
theorem configre_lockin_filter_branch_witness :
    (configre_lockin 320 (1/10) 10 12 40).filter is_filter_call =
      [Event.set_filter 10 "Slope12dB"]
    ∧ (configre_lockin 320 (1/10) 10 7 40).filter is_filter_call = [] := by
  constructor
  · have h := (configre_lockin_filter_branch 320 (1/10) 10 12 40).1
      (Or.inr (Or.inl rfl))
    simpa [slope_string_twelve] using h
  · exact ((configre_lockin_filter_branch 320 (1/10) 10 7 40).2
      (by norm_num)).1

/-- Claim C4: for every pair of `r` and `theta` arguments, `spatial_scan`
performs the same scan steps — the only event depending on `r` or `theta`
is the final contour plot — with exactly 198 instrument reads in total,
organised as 18 angular iterations of 1 baseline read plus 10 radial-step
reads (the accumulated data is 18 rows of 11 readings). -/
theorem spatial_scan_fixed (r theta r2 theta2 : List ℚ) (reads : Nat → ℚ) :
    (spatial_scan r theta reads).1.filter (fun e => !is_contour_plot e) =
      (spatial_scan r2 theta2 reads).1.filter (fun e => !is_contour_plot e)
    ∧ (spatial_scan r theta reads).1.countP is_get_data = 198
    ∧ (spatial_scan r theta reads).2.length = 18
    ∧ (spatial_scan r theta reads).2.map List.length =
        List.replicate 18 11 := by
  refine ⟨?_, ?_, ?_, ?_⟩
  · simp [spatial_scan, List.filter_append, is_contour_plot]
  · simp [spatial_scan, List.countP_append, is_get_data,
      angular_loop_count, List.countP_cons]
  · simp [spatial_scan, angular_loop_snd_length]
  · simp [spatial_scan, angular_loop_rows]

/-- Claim C5 failing input: the claim says the filter-set call carries the
supplied `lowpass_corner`, but with `lowpass_corner = 20` (and valid slope
12) the source's branch still sends the hard-coded literal corner `10` —
contradicting the docstring, which documents `lowpass_corner` as the
filter's corner frequency. -/
theorem configre_lockin_corner_hardcoded :
    (configre_lockin 320 (1/10) 20 12 40).filter is_filter_call =
      [Event.set_filter 10 "Slope12dB"]
    ∧ (configre_lockin 320 (1/10) 20 12 40).filter is_filter_call ≠
      [Event.set_filter 20 "Slope12dB"] := by
  constructor <;> decide

/-- Claim C6: `set_amplitude a` issues exactly one auxiliary-output call,
carrying amplitude `a` and the frequency sentinel `0`, and no
demodulation/set-frequency call; run against the fake instrument state
the only recorded change is the auxiliary amplitude — in particular the
configured demodulation and auxiliary frequencies are unchanged. -/
theorem set_amplitude_effect (a : ℚ) (s : FakeInstrument) :
    set_amplitude a = [Event.set_aux_output 0 a]
    ∧ (set_amplitude a).countP is_aux_output = 1
    ∧ (set_amplitude a).countP is_set_frequency = 0
    ∧ applyEvents s (set_amplitude a) = { s with auxAmplitude := a }
    ∧ (applyEvents s (set_amplitude a)).demodFrequency = s.demodFrequency
    ∧ (applyEvents s (set_amplitude a)).auxFrequency = s.auxFrequency := by
  refine ⟨rfl, rfl, rfl, ?_, ?_, ?_⟩ <;>
    simp [set_amplitude, applyEvents, applyEvent]

/-- Claim C7: for every invocation with a valid `lowpass_slope`,
`configre_lockin` issues its eight remote calls in exactly the source
order: frontend, demodulation, auxiliary output, lowpass filter, gain,
monitor, output routing, polar range. -/
theorem configre_lockin_order (freq amp lowpass_corner lowpass_slope gain : ℚ)
    (h : lowpass_slope = 6 ∨ lowpass_slope = 12 ∨ lowpass_slope = 18 ∨
      lowpass_slope = 24) :
    configre_lockin freq amp lowpass_corner lowpass_slope gain =
      [Event.set_frontend 1 "AC" "1MOhm" "0dB",
       Event.set_demodulation "Internal" freq (some 0),
       Event.set_aux_output freq amp,
       Event.set_filter 10 (slope_string lowpass_slope),
       Event.set_gain gain 1,
       Event.set_monitor 2 "MainOutput",
       Event.set_outputs "R" "Demod",
       Event.set_polar_mode "7.5mVpp"] := by
  rcases h with h | h | h | h <;> subst h <;>
    norm_num [configre_lockin, slope_string]

/-- Witness for C7 at the default arguments with slope 12. -/
theorem configre_lockin_order_witness :
    configre_lockin 320 (1/10) 10 12 40 =
      [Event.set_frontend 1 "AC" "1MOhm" "0dB",
       Event.set_demodulation "Internal" 320 (some 0),
       Event.set_aux_output 320 (1/10),
       Event.set_filter 10 "Slope12dB",
       Event.set_gain 40 1,
       Event.set_monitor 2 "MainOutput",
       Event.set_outputs "R" "Demod",
       Event.set_polar_mode "7.5mVpp"] := by
  have h := configre_lockin_order 320 (1/10) 10 12 40 (Or.inr (Or.inl rfl))
  simpa [slope_string_twelve] using h

/-- Claim C8: for every buffered channel-data record, `get_output` returns
the arithmetic mean of the monitored channel's (channel 2's) samples: it
equals the spec-side `arithmeticMean` of `ch2`, and for a nonempty record
multiplying it by the sample count recovers the sample sum. -/
theorem get_output_mean (data : ChannelData) (h : data.ch2 ≠ []) :
    get_output data = arithmeticMean data.ch2
    ∧ (data.ch2.length : ℚ) * get_output data = data.ch2.sum := by
  refine ⟨rfl, ?_⟩
  have hlen : (data.ch2.length : ℚ) ≠ 0 := by simpa using h
  rw [get_output, average]
  field_simp

/-- Witness for C8 at the record with channel-2 samples `[1, 2]`. -/
theorem get_output_mean_witness :
    get_output ⟨[], [1, 2]⟩ = arithmeticMean [1, 2]
    ∧ ((([1, 2] : List ℚ).length : ℚ)) * get_output ⟨[], [1, 2]⟩ =
        ([1, 2] : List ℚ).sum :=
  get_output_mean ⟨[], [1, 2]⟩ (by simp)

/-- Claim C9: for every frequency and any two phase values, the two
`set_frequency` calls issue the identical demodulation call — `Internal`
source with the given frequency, the phase keyword omitted — so the phase
argument has no effect on the issued call. -/
theorem set_frequency_phase_unused (freq p1 p2 : ℚ) :
    set_frequency freq p1 = set_frequency freq p2
    ∧ set_frequency freq p1 =
        [Event.set_demodulation "Internal" freq none] :=
  ⟨rfl, rfl⟩

/-- Claim C10: on the empty frequency sequence `scan` issues no events at
all — no set-frequency calls, no reads, no settle waits, and in particular
no progress line, so the progress computation dividing by the sequence
length never executes — and returns the empty array. -/
theorem scan_empty (delay : ℚ) (reads : Nat → Option ℚ) :
    scan [] delay reads = ([], [])
    ∧ (scan [] delay reads).1.countP is_set_frequency = 0
    ∧ (scan [] delay reads).1.countP is_get_data = 0
    ∧ (scan [] delay reads).1.countP is_sleep = 0
    ∧ (scan [] delay reads).1.filter is_progress = [] :=
  ⟨rfl, rfl, rfl, rfl, rfl⟩

end Drum
